import Mathlib

/-!
# Shallow embedding of the hadoku-trader Fidelity trading core

This file embeds, in Lean 4, the data model and the control logic of the
repository's order-transaction engine and authentication flow:

* `fidelity/models.py` — `OrderResult` (= the spec's TradeOutcome);
* `fidelity/trading.py` — `FidelityTrading.transaction` and its helper
  stages (`_select_action`, `_enter_quantity`, `_set_order_type`,
  `_set_limit_order`, `_setup_extended_hours`, `_validate_preview`,
  `_preview_order`, `_submit_order`);
* `fidelity/async_client.py` — `FidelityClientAsync.login` / `_handle_2fa`
  and the order-type branch of `FidelityClientAsync.transaction`;
* the error classifier `classify_error` imported by `test_dry_run.py`
  (its implementation file is not part of the sources; it is modelled
  from the specification, and marked as such below).

Browser/UI effects are modelled by environment records whose fields give
the outcome of each externally observable UI step (a value, or a raised
fault).  Python exceptions are modelled with `Except Fault`; Python
`float` prices are modelled as exact rationals `ℚ`, with Python's
`round(x, p)` modelled as round-half-to-even at `p` decimal digits.
-/

/-- ASCII-lowering of one character, as Python's `str.lower` acts on the
ASCII range used by the classifier phrases. -/
def asciiLower (c : Char) : Char :=
  if 'A' ≤ c ∧ c ≤ 'Z' then Char.ofNat (c.toNat + 32) else c

/-- ASCII-uppering of one character, as Python's `str.upper` acts on the
ASCII range used by ticker symbols and account numbers. -/
def asciiUpper (c : Char) : Char :=
  if 'a' ≤ c ∧ c ≤ 'z' then Char.ofNat (c.toNat - 32) else c

/-- Python `s.lower()` (ASCII fragment). -/
def pyLower (s : String) : String := ⟨s.data.map asciiLower⟩

/-- Python `s.upper()` (ASCII fragment). -/
def pyUpper (s : String) : String := ⟨s.data.map asciiUpper⟩

/-- Helper for `pyTitle`: the Boolean records whether the previous
character was a letter. -/
def pyTitleChars : Bool → List Char → List Char
  | _, [] => []
  | prevAlpha, c :: cs =>
      (if prevAlpha then asciiLower c else asciiUpper c)
        :: pyTitleChars c.isAlpha cs

/-- Python `s.title()`: a letter is upper-cased when it follows a
non-letter and lower-cased when it follows a letter. -/
def pyTitle (s : String) : String := ⟨pyTitleChars false s.data⟩

/-- Does `needle` occur at the head of `hay`? -/
def startsWithChars : List Char → List Char → Bool
  | _, [] => true
  | [], _ :: _ => false
  | h :: hs, n :: ns => h == n && startsWithChars hs ns

/-- Substring occurrence on character lists (Python's `needle in hay`). -/
def containsChars : List Char → List Char → Bool
  | [], needle => needle.isEmpty
  | h :: t, needle => startsWithChars (h :: t) needle || containsChars t needle

/-- Python's `needle in hay` on strings. -/
def containsSub (hay needle : String) : Bool :=
  containsChars hay.data needle.data

/-- Does the lowered message contain any phrase of the list? -/
def containsAny (hay : String) (phrases : List String) : Bool :=
  phrases.any (fun p => containsSub hay p)

/-- `fidelity/models.py`, `OrderResult`: result of a transaction attempt
(the spec's TradeOutcome). -/
structure OrderResult where
  success : Bool
  error_message : Option String
deriving Repr, DecidableEq

/-- `fidelity/models.py`, `LoginResult`: the two-boolean login outcome. -/
structure LoginResult where
  step1_success : Bool
  fully_logged_in : Bool
deriving Repr, DecidableEq

/-- The closed alert-code taxonomy of the spec (§3).  Its defining
enumeration is not among the sources; the constructor set is taken from
the spec's AlertCode enum. -/
inductive AlertCode where
  | SUCCESS
  | NO_POSITION
  | INSUFFICIENT_FUNDS
  | MARKET_CLOSED
  | ORDER_REJECTED
  | TIMEOUT
  | UNKNOWN
deriving Repr, DecidableEq

/-- Phrases implying no shares held (classifier phrase table; the table
itself is modelled, see `classify_error`). -/
def noPositionPhrases : List String := ["no shares", "do not own", "not held"]

/-- Phrases implying insufficient buying power or cash. -/
def insufficientPhrases : List String :=
  ["insufficient", "buying power", "not enough cash"]

/-- Phrases implying the market or session is closed. -/
def marketClosedPhrases : List String :=
  ["market is closed", "market closed", "session is closed", "extended hours session"]

/-- Phrases of timeout-sourced messages (the engine's own timeout results
begin with "Timeout ...", see `transaction`). -/
def timeoutPhrases : List String := ["timeout", "timed out"]

/-- Modelled from the spec: the Error Classifier `classify_error`
(imported by `test_dry_run.py` from `fidelity.trading`; its defining
module is not among the sources).  Spec §4.3: case-insensitive substring
matching ordered by specificity — no-shares phrases → `NO_POSITION`,
insufficient buying-power/cash phrases → `INSUFFICIENT_FUNDS`,
market/session-closed phrases → `MARKET_CLOSED`, timeout-sourced
messages → `TIMEOUT`, any other non-empty text → `ORDER_REJECTED`,
empty → `UNKNOWN`. -/
def classify_error (message : String) : AlertCode :=
  let m := pyLower message
  if containsAny m noPositionPhrases then .NO_POSITION
  else if containsAny m insufficientPhrases then .INSUFFICIENT_FUNDS
  else if containsAny m marketClosedPhrases then .MARKET_CLOSED
  else if containsAny m timeoutPhrases then .TIMEOUT
  else if message ≠ "" then .ORDER_REJECTED
  else .UNKNOWN

/-- The alert code carried by a TradeOutcome: a success is reported with
alert SUCCESS (`test_dry_run.py` line 112), a failure is classified from
its error message (`test_dry_run.py` lines 123–127:
`classify_error(error_message or "")`). -/
def outcome_alert (r : OrderResult) : AlertCode :=
  if r.success then .SUCCESS else classify_error (r.error_message.getD "")

/-- Floor of a rational as an integer. -/
def ratFloor (q : ℚ) : ℤ := ⌊q⌋

/-- Round-half-to-even to an integer, the semantics of Python's
`round` on the exact value (binary floating-point representation
abstracted to ℚ). -/
def roundHalfEven (q : ℚ) : ℤ :=
  let f := ratFloor q
  let frac := q - (f : ℚ)
  if frac < 1/2 then f
  else if 1/2 < frac then f + 1
  else if f % 2 = 0 then f else f + 1

/-- Python `round(q, p)`: round-half-to-even at `p` decimal digits. -/
def pyRound (q : ℚ) (p : ℕ) : ℚ :=
  (roundHalfEven (q * (10 : ℚ) ^ p) : ℚ) / (10 : ℚ) ^ p

/-- The two order modes of `_set_order_type`. -/
inductive OrderMode where
  | market
  | limit
deriving Repr, DecidableEq

/-- `trading.py` lines 262–265, the branch of `_set_order_type`:
limit order when `last_price < 1 or extended or limit_price is not None`,
else market order. -/
def set_order_type_mode (last_price : ℚ) (extended : Bool)
    (limit_price : Option ℚ) : OrderMode :=
  if decide (last_price < 1) || extended || limit_price.isSome then .limit
  else .market

/-- `trading.py` lines 277–285, the price computed by `_set_limit_order`:
the explicit limit price when supplied, else last price nudged by
`0.01` (when `last_price > 0.1`) or `0.0001`, up for a buy and down
otherwise, rounded to `precision` digits. -/
def limit_order_price (last_price : ℚ) (action : String) (precision : ℕ)
    (limit_price : Option ℚ) : ℚ :=
  match limit_price with
  | some p => p
  | none =>
      let diff : ℚ := if (1 : ℚ)/10 < last_price then 1/100 else 1/10000
      if pyLower action = "buy" then pyRound (last_price + diff) precision
      else pyRound (last_price - diff) precision

/-- A Python exception escaping a UI step: either the Playwright
timeout error (caught separately at line 110 of `trading.py`) or any
other exception (caught at line 115), each carrying its text. -/
inductive Fault where
  | timeout (msg : String)
  | other (msg : String)
deriving Repr, DecidableEq

/-- Stand-in for Python `str(…)` on a numeric value as interpolated in
`f"Quantity{quantity}"` and `fill(str(quantity))`; the exact float
formatting is abstracted into a fixed injective rendering. -/
def pyStr (q : ℚ) : String := toString q

/-- The four visibility probes `_validate_preview` makes against the
rendered preview page: the preview-panel filter on the account label,
and `get_by_text` visibility for an exact text. -/
structure PreviewPage where
  accountVisible : String → Bool
  textVisible : String → Bool

/-- The environment of one `FidelityTrading.transaction` call: the
outcome of each externally observable browser step (a returned value, or
a raised `Fault`). -/
structure TradeEnv where
  /-- `_navigate_to_trade_page` (line 60). -/
  navigate : Except Fault Unit
  /-- `_select_account` (line 63). -/
  selectAccount : Except Fault Unit
  /-- `_enter_symbol` (line 66): the parsed last traded price. -/
  enterSymbol : Except Fault ℚ
  /-- `extended_btn.is_visible()` (line 177). -/
  extBtnVisible : Bool
  /-- `extended_wrapper.first.get_attribute("class") or ""` (line 179). -/
  extWrapperClass : String
  /-- the `extended_btn.click()` + wait (lines 181–182). -/
  extClick : Except Fault Unit
  /-- `get_by_text("Extended hours trading").is_visible()` (line 188). -/
  extTextVisible : Bool
  /-- `off_text.is_visible()` (line 192). -/
  extOffTextVisible : Bool
  /-- `off_text.check()` (line 193). -/
  extCheck : Except Fault Unit
  /-- `expand_btn.is_visible()` (line 199). -/
  expandBtnVisible : Bool
  /-- expand click + wait for "Calculate shares" (lines 200–203). -/
  expandClick : Except Fault Unit
  /-- `_get_extended_price` (line 71), given the fallback price. -/
  extendedPrice : ℚ → Except Fault ℚ
  /-- `_select_action` attempt oracle: did `target_option.click` succeed
  on the k-th loop iteration (lines 229–240)?  Every exception inside
  the loop body is caught by the loop itself. -/
  actionClickSucceeds : ℕ → Bool
  /-- `_enter_quantity` (line 81). -/
  enterQuantity : Except Fault Unit
  /-- the UI interaction of `_set_order_type` (lines 287–301), given the
  decided mode and the limit price it fills, if any. -/
  orderTypeUI : OrderMode × Option ℚ → Except Fault Unit
  /-- `_preview_order` (line 93): `none` when the "Place order" control
  appeared, `some msg` when an error message was extracted
  (`_extract_error_message` itself never raises). -/
  previewOrder : Except Fault (Option String)
  /-- the preview page probed by `_validate_preview` (line 98). -/
  previewPage : PreviewPage
  /-- the "Place order" click of `_submit_order` (line 390). -/
  submitClick : Except Fault Unit
  /-- waiting for the "Order received" confirmation (lines 393–396):
  `ok` when seen, a `Fault` otherwise (its `timeout` case is caught
  inside `_submit_order`, line 398). -/
  confirmation : Except Fault Unit

/-- The arguments of `FidelityTrading.transaction` (lines 29–37). -/
structure TradeArgs where
  stock : String
  quantity : ℚ
  action : String
  account : String
  dry : Bool
  limit_price : Option ℚ

/-- The trailing part of `_setup_extended_hours` (lines 197–205): click
"View expanded ticket" when visible, then return the pair. -/
def after_expand (env : TradeEnv) (r : Bool × ℕ) : Except Fault (Bool × ℕ) :=
  if env.expandBtnVisible then
    match env.expandClick with
    | .error f => .error f
    | .ok _ => .ok r
  else .ok r

/-- `_setup_extended_hours` (lines 162–205): returns
`(extended_enabled, price_precision)`.  The toggle is clicked only when
its wrapper class lacks `pvd-switch--on`; a text-based legacy path is
the fallback; default `(false, 3)`. -/
def setup_extended_hours (env : TradeEnv) : Except Fault (Bool × ℕ) :=
  if env.extBtnVisible then
    match (if containsSub env.extWrapperClass "pvd-switch--on" then .ok ()
           else env.extClick) with
    | .error f => .error f
    | .ok _ => after_expand env (true, 2)
  else if env.extTextVisible then
    match (if env.extOffTextVisible then env.extCheck else .ok ()) with
    | .error f => .error f
    | .ok _ => after_expand env (true, 2)
  else after_expand env (false, 3)

/-- The retry loop of `_select_action` (lines 229–242), recursing on the
remaining attempt budget: returns whether an option click succeeded,
paired with the number of attempts actually made. -/
def select_action_from (succeeds : ℕ → Bool) : ℕ → ℕ → Bool × ℕ
  | _, 0 => (false, 0)
  | k, n + 1 =>
      if succeeds k then (true, 1)
      else
        let r := select_action_from succeeds (k + 1) n
        (r.1, r.2 + 1)

/-- `_select_action` (lines 216–242): `for attempt in range(5)` around
the option click; every exception in the body is caught by the loop. -/
def select_action (succeeds : ℕ → Bool) : Bool × ℕ :=
  select_action_from succeeds 0 5

/-- `_validate_preview` (lines 367–384): the four preview checks —
account (upper-cased), `"Symbol" + stock.upper()`,
`"Action" + action.lower().title()`, `"Quantity" + str(quantity)` —
combined with `all`. -/
def validate_preview (pg : PreviewPage) (account stock action : String)
    (quantity : ℚ) : Bool :=
  pg.accountVisible (pyUpper account) &&
  pg.textVisible ("Symbol" ++ pyUpper stock) &&
  pg.textVisible ("Action" ++ pyTitle (pyLower action)) &&
  pg.textVisible ("Quantity" ++ pyStr quantity)

/-- `_submit_order` (lines 386–402): click "Place order"; a timeout
while waiting for "Order received" is caught and becomes a failed
`OrderResult`, any other fault propagates. -/
def submit_order (env : TradeEnv) : Except Fault OrderResult :=
  match env.submitClick with
  | .error f => .error f
  | .ok _ =>
      match env.confirmation with
      | .ok _ => .ok ⟨true, none⟩
      | .error (.timeout e) =>
          .ok ⟨false, some ("Timeout waiting for order confirmation: " ++ e)⟩
      | .error (.other e) => .error (.other e)

/-- The body of `FidelityTrading.transaction` (lines 58–108), before the
outer exception handlers: each stage in order, short-circuiting on the
stage-specific failure results. -/
def transaction_body (env : TradeEnv) (a : TradeArgs) :
    Except Fault OrderResult :=
  match env.navigate with
  | .error f => .error f
  | .ok _ =>
  match env.selectAccount with
  | .error f => .error f
  | .ok _ =>
  match env.enterSymbol with
  | .error f => .error f
  | .ok last0 =>
  match setup_extended_hours env with
  | .error f => .error f
  | .ok (extended, precision) =>
  match (if extended then env.extendedPrice last0 else .ok last0) with
  | .error f => .error f
  | .ok last_price =>
  if (select_action env.actionClickSucceeds).1 = false then
    .ok ⟨false, some ("Could not select '" ++ a.action ++ "' after 5 attempts")⟩
  else
  match env.enterQuantity with
  | .error f => .error f
  | .ok _ =>
  match env.orderTypeUI
      (set_order_type_mode last_price extended a.limit_price,
       if set_order_type_mode last_price extended a.limit_price = .limit then
         some (limit_order_price last_price a.action precision a.limit_price)
       else none) with
  | .error f => .error f
  | .ok _ =>
  match env.previewOrder with
  | .error f => .error f
  | .ok preview_error =>
  if preview_error.getD "" ≠ "" then .ok ⟨false, preview_error⟩
  else
  if validate_preview env.previewPage a.account a.stock a.action a.quantity
      = false then
    .ok ⟨false, some "Order preview doesn't match expected values"⟩
  else
  if a.dry = false then submit_order env
  else .ok ⟨true, none⟩

/-- The messages produced by the outer exception handlers of
`transaction` (lines 110–119). -/
def fault_message : Fault → String
  | .timeout e => "Timeout during transaction: " ++ e
  | .other e => "Transaction error: " ++ e

/-- `FidelityTrading.transaction` (lines 29–119): the pipeline body
wrapped in the `except PlaywrightTimeoutError` / `except Exception`
handlers, so the call always returns an `OrderResult`. -/
def transaction (env : TradeEnv) (a : TradeArgs) : OrderResult :=
  match transaction_body env a with
  | .ok r => r
  | .error f => ⟨false, some (fault_message f)⟩

/-- The environment of one `FidelityClientAsync.login` call
(`async_client.py` lines 74–194). -/
structure LoginEnv where
  /-- navigation, credential fills and the "Log in" click
  (lines 97–115). -/
  credentialSubmit : Except Fault Unit
  /-- `page.url` after the post-submit loads (lines 118 and 126). -/
  urlAfterSubmit : String
  /-- `widget.wait_for` at the top of `_handle_2fa` (lines 148–149). -/
  widgetVisible : Except Fault Unit
  /-- `totp_heading.is_visible()` (lines 152–153). -/
  totpHeadingVisible : Bool
  /-- TOTP code fill (lines 176–179). -/
  totpFill : Except Fault Unit
  /-- `_check_save_device_box` (lines 190–194). -/
  saveDeviceCheck : Except Fault Unit
  /-- the "Continue" click, load wait and `wait_for_url(SUMMARY)`
  (lines 184–186). -/
  totpContinue : Except Fault Unit
  /-- `try_another.is_visible()` (lines 157–158). -/
  tryAnotherVisible : Bool
  /-- the `try_another.click()` (line 161). -/
  tryAnotherClick : Except Fault Unit
  /-- "Text me the code" click and the input focus (lines 163–164). -/
  smsSteps : Except Fault Unit

/-- The observable result of the login model: the returned two-boolean
tuple of the Python code, plus whether the TOTP-code branch
(`_complete_totp_login`) was entered. -/
structure LoginTrace where
  step1_success : Bool
  fully_logged_in : Bool
  totpAttempted : Bool
deriving Repr, DecidableEq

/-- Python truthiness of an `Optional[str]` (`if totp_secret and …`,
line 153): `None` and the empty string are falsy. -/
def optStrTruthy : Option String → Bool
  | none => false
  | some s => s ≠ ""

/-- `_complete_totp_login` (lines 168–188): fill the code, optionally
check the save-device box, press Continue and wait for the summary URL.
A raised fault carries `true`: the TOTP branch had been entered. -/
def complete_totp_login (env : LoginEnv) (save_device : Bool) :
    Except (Fault × Bool) LoginTrace :=
  match env.totpFill with
  | .error f => .error (f, true)
  | .ok _ =>
  match (if save_device then env.saveDeviceCheck else .ok ()) with
  | .error f => .error (f, true)
  | .ok _ =>
  match env.totpContinue with
  | .error f => .error (f, true)
  | .ok _ => .ok ⟨true, true, true⟩

/-- `_handle_2fa` (lines 139–166): the TOTP branch is taken when the
(already normalized) secret is truthy and the TOTP heading is visible;
otherwise the SMS fallback runs and returns `(True, False)`. -/
def handle_2fa (env : LoginEnv) (totp_secret : Option String)
    (save_device : Bool) : Except (Fault × Bool) LoginTrace :=
  match env.widgetVisible with
  | .error f => .error (f, false)
  | .ok _ =>
  if optStrTruthy totp_secret && env.totpHeadingVisible then
    complete_totp_login env save_device
  else
    match (if env.tryAnotherVisible then
             (match (if save_device then env.saveDeviceCheck else .ok ()) with
              | .error f => .error f
              | .ok _ => env.tryAnotherClick : Except Fault Unit)
           else .ok ()) with
    | .error f => .error (f, false)
    | .ok _ =>
    match env.smsSteps with
    | .error f => .error (f, false)
    | .ok _ => .ok ⟨true, false, false⟩

/-- The body of `FidelityClientAsync.login` (lines 93–129) before the
exception handlers: submit credentials; `"summary" in page.url` means
already logged in; the literal secret `"NA"` is normalized to `None`
(lines 122–123) before `"login" in page.url` routes to 2FA handling. -/
def login_body (env : LoginEnv) (totp_secret : Option String)
    (save_device : Bool) : Except (Fault × Bool) LoginTrace :=
  match env.credentialSubmit with
  | .error f => .error (f, false)
  | .ok _ =>
  if containsSub env.urlAfterSubmit "summary" then .ok ⟨true, true, false⟩
  else
    let secret := if totp_secret = some "NA" then none else totp_secret
    if containsSub env.urlAfterSubmit "login" then
      handle_2fa env secret save_device
    else .ok ⟨false, false, false⟩

/-- `FidelityClientAsync.login` (lines 74–137): any fault is caught and
converted to `(False, False)` (lines 131–137). -/
def login (env : LoginEnv) (totp_secret : Option String)
    (save_device : Bool) : LoginTrace :=
  match login_body env totp_secret save_device with
  | .ok t => t
  | .error (_, att) => ⟨false, false, att⟩

/-- `async_client.py` line 349: the async `transaction` fills the
quantity field with `str(int(quantity))` — the share count truncated
toward zero. -/
def async_enter_quantity_value (quantity : ℚ) : ℤ :=
  if 0 ≤ quantity then ⌊quantity⌋ else ⌈quantity⌉

/-- `trading.py` line 248: the sync `_enter_quantity` fills the quantity
field with `str(quantity)` — the requested share count unmodified. -/
def enter_quantity_value (quantity : ℚ) : ℚ := quantity

/-- `async_client.py` line 352 (`if limit_price:`): the async
`transaction` enters the limit-order block exactly when the caller's
`limit_price` is truthy — present and nonzero. -/
def async_limit_entered (limit_price : Option ℚ) : Bool :=
  match limit_price with
  | none => false
  | some p => p ≠ 0

/-- A concrete trade request used to evaluate the model on closed
inputs. -/
def argsW : TradeArgs :=
  { stock := "AAPL", quantity := 1, action := "buy", account := "Z123",
    dry := true, limit_price := none }

/-- A concrete environment in which every UI step succeeds: regular
hours, the side option clickable at once, a clean preview. -/
def envOkW : TradeEnv :=
  { navigate := .ok (), selectAccount := .ok (), enterSymbol := .ok 10,
    extBtnVisible := false, extWrapperClass := "", extClick := .ok (),
    extTextVisible := false, extOffTextVisible := false, extCheck := .ok (),
    expandBtnVisible := false, expandClick := .ok (),
    extendedPrice := fun q => .ok q,
    actionClickSucceeds := fun _ => true,
    enterQuantity := .ok (),
    orderTypeUI := fun _ => .ok (),
    previewOrder := .ok none,
    previewPage := ⟨fun _ => true, fun _ => true⟩,
    submitClick := .ok (), confirmation := .ok () }

/-- `envOkW` except that the buy/sell option never becomes clickable. -/
def envActionStuckW : TradeEnv :=
  { envOkW with actionClickSucceeds := fun _ => false }

/-- `envOkW` except that no text probe on the preview page matches. -/
def envPreviewMismatchW : TradeEnv :=
  { envOkW with previewPage := ⟨fun _ => true, fun _ => false⟩ }

/-- `envOkW` except that navigation raises a Playwright timeout. -/
def envNavTimeoutW : TradeEnv :=
  { envOkW with navigate := .error (.timeout "nav") }

/-- A concrete login environment: credentials accepted, still on the
login page, TOTP heading shown, every subsequent step succeeding. -/
def loginEnvW : LoginEnv :=
  { credentialSubmit := .ok (),
    urlAfterSubmit := "https://digital.fidelity.com/prgw/digital/login/full-page",
    widgetVisible := .ok (), totpHeadingVisible := true,
    totpFill := .ok (), saveDeviceCheck := .ok (), totpContinue := .ok (),
    tryAnotherVisible := true, tryAnotherClick := .ok (),
    smsSteps := .ok () }

/-- The classifier never reports success: every branch of
`classify_error` yields a non-`SUCCESS` code. -/
lemma classify_error_ne_success (s : String) :
    classify_error s ≠ AlertCode.SUCCESS := by
  by_cases h5 : s = ""
  · subst h5; decide
  · unfold classify_error
    by_cases h1 : containsAny (pyLower s) noPositionPhrases = true <;>
      by_cases h2 : containsAny (pyLower s) insufficientPhrases = true <;>
        by_cases h3 : containsAny (pyLower s) marketClosedPhrases = true <;>
          by_cases h4 : containsAny (pyLower s) timeoutPhrases = true <;>
            simp [h1, h2, h3, h4, h5]

/-- If every attempt fails, the retry loop runs through its whole budget
and reports failure with that many attempts. -/
lemma select_action_from_all_fail (f : ℕ → Bool) (h : ∀ k, f k = false) :
    ∀ n s, select_action_from f s n = (false, n) := by
  intro n
  induction n with
  | zero => intro s; rfl
  | succ n ih => intro s; simp [select_action_from, h s, ih (s + 1)]

/-- The retry loop only consults the oracle on the indices of its
attempt window. -/
lemma select_action_from_congr (f g : ℕ → Bool) :
    ∀ n s, (∀ k, s ≤ k → k < s + n → f k = g k) →
      select_action_from f s n = select_action_from g s n := by
  intro n
  induction n with
  | zero => intro s _; rfl
  | succ n ih =>
      intro s hfg
      have hs : f s = g s := hfg s le_rfl (by omega)
      simp only [select_action_from, hs]
      rw [ih (s + 1) (fun k hk1 hk2 => hfg k (by omega) (by omega))]

/-- Every result `transaction_body` completes with is either the clean
success `⟨true, none⟩` or a failure carrying a message. -/
lemma transaction_body_ok_shape (env : TradeEnv) (a : TradeArgs)
    (r : OrderResult) (h : transaction_body env a = .ok r) :
    r = ⟨true, none⟩ ∨
      (r.success = false ∧ r.error_message.isSome = true) := by
  unfold transaction_body submit_order at h
  repeat' split at h
  all_goals (try exact (Except.noConfusion h))
  all_goals (injection h with h; subst h)
  all_goals simp_all
  all_goals (refine Option.isSome_iff_ne_none.mpr ?_; intro hn; simp_all)

/-- C1: every `OrderResult` produced by `transaction` satisfies the
TradeOutcome invariant — `success = true` implies alert `SUCCESS` and no
error message, and `success = false` implies the (classified) alert is
not `SUCCESS`; no result has both `success = true` and a populated
error message. -/
theorem trade_outcome_alert_invariant (env : TradeEnv) (a : TradeArgs) :
    ((transaction env a).success = true →
      outcome_alert (transaction env a) = AlertCode.SUCCESS ∧
      (transaction env a).error_message = none) ∧
    ((transaction env a).success = false →
      outcome_alert (transaction env a) ≠ AlertCode.SUCCESS) := by
  have hshape : transaction env a = ⟨true, none⟩ ∨
      ((transaction env a).success = false ∧
       (transaction env a).error_message.isSome = true) := by
    unfold transaction
    rcases hb : transaction_body env a with f | r
    · simp
    · exact transaction_body_ok_shape env a r hb
  constructor
  · intro hs
    rcases hshape with h | h
    · rw [h]; exact ⟨rfl, rfl⟩
    · rw [h.1] at hs; cases hs
  · intro hs
    have : (transaction env a).success = false := hs
    unfold outcome_alert
    rw [this]
    simp only [Bool.false_eq_true, if_false]
    exact classify_error_ne_success _

theorem trade_outcome_alert_invariant_success_witness :
    outcome_alert (transaction envOkW argsW) = AlertCode.SUCCESS ∧
    (transaction envOkW argsW).error_message = none :=
  (trade_outcome_alert_invariant envOkW argsW).1 (by decide)

/-- C7: the pipeline never lets a fault escape — whenever the body
raises a `Fault` (timeout or otherwise), `transaction` returns
`success = false` with the corresponding descriptive message, and every
failed result carries some message. -/
theorem transaction_fault_containment (env : TradeEnv) (a : TradeArgs) :
    (∀ f : Fault, transaction_body env a = .error f →
      transaction env a = ⟨false, some (fault_message f)⟩) ∧
    ((transaction env a).success = false →
      ∃ m, (transaction env a).error_message = some m) := by
  constructor
  · intro f hf
    unfold transaction
    rw [hf]
  · intro hs
    rcases hb : transaction_body env a with f | r
    · exact ⟨fault_message f, by unfold transaction; rw [hb]⟩
    · have := transaction_body_ok_shape env a r hb
      have hr : transaction env a = r := by unfold transaction; rw [hb]
      rcases this with h | h
      · rw [hr, h] at hs; cases hs
      · rw [hr]
        exact Option.isSome_iff_exists.mp h.2

theorem transaction_fault_containment_witness :
    transaction envNavTimeoutW argsW =
      ⟨false, some "Timeout during transaction: nav"⟩ :=
  (transaction_fault_containment envNavTimeoutW argsW).1
    (Fault.timeout "nav") rfl

/-- The branch of `_set_order_type`, as an equivalence. -/
lemma set_order_type_mode_limit_iff (last : ℚ) (ext : Bool)
    (lp : Option ℚ) :
    set_order_type_mode last ext lp = OrderMode.limit ↔
      (last < 1 ∨ ext = true ∨ lp.isSome = true) := by
  cases ext <;> rcases lp with _ | p <;> by_cases hl : last < 1 <;>
    simp [set_order_type_mode, hl]

/-- C2: `_set_order_type` chooses a limit order exactly when the last
price is strictly below 1.00, or extended hours is active, or an
explicit limit price was supplied, and a market order in every other
case; in particular last price 0.75 gives a limit order regardless of
the flags, last price 10.00 with neither flag gives a market order, and
extended hours gives a limit order even at last price 100.00. -/
theorem order_mode_decision (last : ℚ) (ext : Bool) (lp : Option ℚ) :
    (set_order_type_mode last ext lp = OrderMode.limit ↔
      (last < 1 ∨ ext = true ∨ lp.isSome = true)) ∧
    (set_order_type_mode last ext lp = OrderMode.market ↔
      ¬(last < 1 ∨ ext = true ∨ lp.isSome = true)) ∧
    set_order_type_mode (3/4) ext lp = OrderMode.limit ∧
    set_order_type_mode 10 false none = OrderMode.market ∧
    set_order_type_mode 100 true lp = OrderMode.limit := by
  refine ⟨set_order_type_mode_limit_iff last ext lp, ?_, ?_, ?_, ?_⟩
  · rw [← set_order_type_mode_limit_iff last ext lp]
    cases hsm : set_order_type_mode last ext lp <;> simp [hsm]
  · exact (set_order_type_mode_limit_iff _ ext lp).mpr (Or.inl (by norm_num))
  · have h : ¬((10 : ℚ) < 1 ∨ false = true ∨ (none : Option ℚ).isSome = true) := by
      norm_num
    cases hsm : set_order_type_mode 10 false (none : Option ℚ) with
    | market => rfl
    | limit => exact absurd ((set_order_type_mode_limit_iff _ _ _).mp hsm) h
  · exact (set_order_type_mode_limit_iff _ _ lp).mpr (Or.inr (Or.inl rfl))

/-- C10: the async client's `transaction` enters the limit-order block
exactly when the caller's `limit_price` is truthy (present and
nonzero); the sync engine's penny-stock and extended-hours rules play no
part there, so `limit_price` `None` or `0` means no limit price is set
even where the sync decision (`_set_order_type`) would use a limit
order for a sub-$1.00 stock. -/
theorem async_limit_decision (lp : Option ℚ) :
    (async_limit_entered lp = true ↔ ∃ p, lp = some p ∧ p ≠ 0) ∧
    async_limit_entered none = false ∧
    async_limit_entered (some 0) = false ∧
    set_order_type_mode (1/2) false none = OrderMode.limit ∧
    set_order_type_mode (1/2) false (some 0) = OrderMode.limit := by
  refine ⟨?_, rfl, by simp [async_limit_entered], ?_, ?_⟩
  · cases lp with
    | none => simp [async_limit_entered]
    | some p => simp [async_limit_entered]
  · exact (set_order_type_mode_limit_iff _ _ _).mpr (Or.inl (by norm_num))
  · exact (set_order_type_mode_limit_iff _ _ _).mpr (Or.inl (by norm_num))

/-- C3 counterexample: the claim's first example fails on the code — at
last price 0.50 with side buy the increment is 0.01 (0.50 > 0.10), so
`_set_limit_order` computes 0.51, not 0.5001. -/
theorem limit_price_example_refuted :
    limit_order_price (1/2) "buy" 3 none ≠ 5001/10000 ∧
    limit_order_price (1/2) "buy" 3 none = 51/100 := by
  have hb : pyLower "buy" = "buy" := by decide
  have hv : limit_order_price (1/2) "buy" 3 none = 51/100 := by
    simp only [limit_order_price, hb]
    norm_num [pyRound, roundHalfEven, ratFloor]
  exact ⟨by rw [hv]; norm_num, hv⟩

/-- C3 (amended): when no explicit limit price is supplied the increment
is 0.01 for last price above 0.10 and 0.0001 otherwise (so also at
exactly 0.10); a buy adds it, a sell subtracts it, rounded half-to-even
at the selected precision; an explicit limit price is passed through.
Last price 0.50 with side buy and precision 3 yields 0.51 (not 0.5001);
last price 50.00 with side sell and precision 2 yields 49.99.  The
precision `_setup_extended_hours` selects is 2 when extended hours is
enabled and 3 otherwise. -/
theorem limit_price_computation (lp : ℚ) (prec : ℕ) (p : ℚ)
    (act : String) (env : TradeEnv) (ext : Bool) (pr : ℕ) :
    (limit_order_price lp act prec (some p) = p) ∧
    (1/10 < lp → limit_order_price lp "buy" prec none
        = pyRound (lp + 1/100) prec) ∧
    (lp ≤ 1/10 → limit_order_price lp "buy" prec none
        = pyRound (lp + 1/10000) prec) ∧
    (1/10 < lp → limit_order_price lp "sell" prec none
        = pyRound (lp - 1/100) prec) ∧
    (lp ≤ 1/10 → limit_order_price lp "sell" prec none
        = pyRound (lp - 1/10000) prec) ∧
    limit_order_price (1/2) "buy" 3 none = 51/100 ∧
    limit_order_price 50 "sell" 2 none = 4999/100 ∧
    limit_order_price (1/10) "buy" 3 none = 1/10 ∧
    limit_order_price (11/100) "buy" 3 none = 3/25 ∧
    (setup_extended_hours env = .ok (ext, pr) →
        pr = if ext then 2 else 3) := by
  have hb : pyLower "buy" = "buy" := by decide
  have hs : pyLower "sell" = "sell" := by decide
  have hsne : ("sell" : String) ≠ "buy" := by decide
  refine ⟨rfl, ?_, ?_, ?_, ?_, ?_, ?_, ?_, ?_, ?_⟩
  · intro h; simp only [limit_order_price, hb, if_pos h]; simp
  · intro h
    simp only [limit_order_price, hb, if_neg (not_lt.mpr h)]; simp
  · intro h
    simp only [limit_order_price, hs, if_pos h, if_neg hsne]
  · intro h
    simp only [limit_order_price, hs, if_neg (not_lt.mpr h), if_neg hsne]
  · simp only [limit_order_price, hb]
    norm_num [pyRound, roundHalfEven, ratFloor]
  · simp only [limit_order_price, hs, if_neg hsne]
    norm_num [pyRound, roundHalfEven, ratFloor]
  · simp only [limit_order_price, hb]
    norm_num [pyRound, roundHalfEven, ratFloor]
  · simp only [limit_order_price, hb]
    norm_num [pyRound, roundHalfEven, ratFloor]
  · intro h
    unfold setup_extended_hours after_expand at h
    repeat' split at h
    all_goals (try exact (Except.noConfusion h))
    all_goals (injection h with h; injection h with h1 h2; subst h1)
    all_goals (subst h2; simp)

theorem limit_price_computation_witness :
    limit_order_price 2 "buy" 3 none = pyRound (2 + 1/100) 3 :=
  (limit_price_computation 2 3 0 "buy" envOkW false 3).2.1 (by norm_num)

/-- C8 counterexample: the sync engine does not truncate — for a
requested quantity of 1.5 shares, `_enter_quantity` writes 1.5 itself
into the quantity field, not its integer truncation 1 (which is what
the async client would write). -/
theorem quantity_truncation_refuted :
    enter_quantity_value (3/2) ≠ ((async_enter_quantity_value (3/2) : ℤ) : ℚ) ∧
    async_enter_quantity_value (3/2) = 1 ∧
    enter_quantity_value (3/2) = 3/2 := by
  have ha : async_enter_quantity_value (3/2) = 1 := by
    unfold async_enter_quantity_value
    rw [if_pos (by norm_num)]
    norm_num [Int.floor_eq_iff]
  refine ⟨?_, ha, rfl⟩
  rw [ha]
  unfold enter_quantity_value
  norm_num

/-- C8 (amended): only the async client's `transaction` truncates the
requested share count to an integer (`str(int(quantity))`, truncation
toward zero) before writing it into the quantity field; the sync
engine's `_enter_quantity` writes the requested quantity unmodified
(`str(quantity)`). -/
theorem quantity_entry_values (q : ℚ) :
    enter_quantity_value q = q ∧
    (0 ≤ q → async_enter_quantity_value q = ⌊q⌋) ∧
    (q < 0 → async_enter_quantity_value q = ⌈q⌉) ∧
    async_enter_quantity_value (3/2) = 1 ∧
    enter_quantity_value (3/2) = 3/2 := by
  refine ⟨rfl, ?_, ?_, ?_, rfl⟩
  · intro h; unfold async_enter_quantity_value; rw [if_pos h]
  · intro h; unfold async_enter_quantity_value; rw [if_neg (not_le.mpr h)]
  · unfold async_enter_quantity_value
    rw [if_pos (by norm_num)]
    norm_num [Int.floor_eq_iff]

theorem quantity_entry_values_witness :
    async_enter_quantity_value 7 = ⌊(7 : ℚ)⌋ :=
  (quantity_entry_values 7).2.1 (by norm_num)

/-- C4: the classifier is a total deterministic function into the closed
`AlertCode` set — exactly one code per input string — and follows the
priority order: no-shares text → `NO_POSITION`, insufficient
buying-power/cash text → `INSUFFICIENT_FUNDS`, market/session-closed
text → `MARKET_CLOSED`, timeout-sourced text → `TIMEOUT`, any other
non-empty text → `ORDER_REJECTED`, the empty string → `UNKNOWN`. -/
theorem classify_error_taxonomy (s : String) :
    (∃! c : AlertCode, classify_error s = c) ∧
    (containsAny (pyLower s) noPositionPhrases = true →
      classify_error s = AlertCode.NO_POSITION) ∧
    (containsAny (pyLower s) noPositionPhrases = false →
     containsAny (pyLower s) insufficientPhrases = true →
      classify_error s = AlertCode.INSUFFICIENT_FUNDS) ∧
    (containsAny (pyLower s) noPositionPhrases = false →
     containsAny (pyLower s) insufficientPhrases = false →
     containsAny (pyLower s) marketClosedPhrases = true →
      classify_error s = AlertCode.MARKET_CLOSED) ∧
    (containsAny (pyLower s) noPositionPhrases = false →
     containsAny (pyLower s) insufficientPhrases = false →
     containsAny (pyLower s) marketClosedPhrases = false →
     containsAny (pyLower s) timeoutPhrases = true →
      classify_error s = AlertCode.TIMEOUT) ∧
    (containsAny (pyLower s) noPositionPhrases = false →
     containsAny (pyLower s) insufficientPhrases = false →
     containsAny (pyLower s) marketClosedPhrases = false →
     containsAny (pyLower s) timeoutPhrases = false →
     s ≠ "" →
      classify_error s = AlertCode.ORDER_REJECTED) ∧
    (s = "" → classify_error s = AlertCode.UNKNOWN) := by
  refine ⟨⟨classify_error s, rfl, fun c hc => hc.symm⟩, ?_, ?_, ?_, ?_, ?_, ?_⟩
  · intro hA; unfold classify_error; simp [hA]
  · intro hA hB; unfold classify_error; simp [hA, hB]
  · intro hA hB hC; unfold classify_error; simp [hA, hB, hC]
  · intro hA hB hC hD; unfold classify_error; simp [hA, hB, hC, hD]
  · intro hA hB hC hD hE; unfold classify_error; simp [hA, hB, hC, hD, hE]
  · intro hE; subst hE; decide

theorem classify_error_taxonomy_witness :
    classify_error "You have no shares of this security" =
      AlertCode.NO_POSITION ∧
    classify_error "Insufficient buying power for this order" =
      AlertCode.INSUFFICIENT_FUNDS ∧
    classify_error "The market is closed" = AlertCode.MARKET_CLOSED ∧
    classify_error "Timeout during transaction: page load" =
      AlertCode.TIMEOUT ∧
    classify_error "This order cannot be processed" =
      AlertCode.ORDER_REJECTED ∧
    classify_error "" = AlertCode.UNKNOWN :=
  ⟨(classify_error_taxonomy _).2.1 (by decide),
   (classify_error_taxonomy _).2.2.1 (by decide) (by decide),
   (classify_error_taxonomy _).2.2.2.1 (by decide) (by decide) (by decide),
   (classify_error_taxonomy _).2.2.2.2.1 (by decide) (by decide) (by decide)
     (by decide),
   (classify_error_taxonomy _).2.2.2.2.2.1 (by decide) (by decide)
     (by decide) (by decide) (by decide),
   (classify_error_taxonomy _).2.2.2.2.2.2 rfl⟩

/-- C5: when the buy/sell option never becomes clickable, the
side-selection loop makes exactly 5 attempts (and consults no 6th), and
the transaction fails with the message naming the requested action and
the attempt count. -/
theorem side_selection_retry_budget (env : TradeEnv) (a : TradeArgs)
    (p p2 : ℚ) (ext : Bool) (prec : ℕ)
    (h1 : env.navigate = .ok ())
    (h2 : env.selectAccount = .ok ())
    (h3 : env.enterSymbol = .ok p)
    (h4 : setup_extended_hours env = .ok (ext, prec))
    (h5 : env.extendedPrice p = .ok p2)
    (h6 : ∀ k, env.actionClickSucceeds k = false) :
    transaction env a =
      ⟨false,
       some ("Could not select '" ++ a.action ++ "' after 5 attempts")⟩ ∧
    (select_action env.actionClickSucceeds).2 = 5 ∧
    (∀ g : ℕ → Bool,
      (∀ k, k < 5 → env.actionClickSucceeds k = g k) →
      select_action g = select_action env.actionClickSucceeds) := by
  have hsel : select_action env.actionClickSucceeds = (false, 5) :=
    select_action_from_all_fail _ h6 5 0
  refine ⟨?_, by rw [hsel], ?_⟩
  · unfold transaction transaction_body
    rw [h1, h2, h3, h4]
    cases ext
    · simp [hsel]
    · simp [hsel, h5]
  · intro g hg
    unfold select_action
    exact select_action_from_congr g env.actionClickSucceeds 5 0
      (fun k _ hk => (hg k (by omega)).symm)

theorem side_selection_retry_budget_witness :
    transaction envActionStuckW argsW =
      ⟨false, some "Could not select 'buy' after 5 attempts"⟩ :=
  (side_selection_retry_budget envActionStuckW argsW 10 10 false 3
    rfl rfl rfl rfl rfl (fun _ => rfl)).1

/-- C6: `_validate_preview` requires all four checks — the upper-cased
account label on the preview panel, `"Symbol"` + upper-cased symbol,
`"Action"` + title-cased action, `"Quantity"` + the quantity text — and
a preview that renders without error but lacks the expected quantity
text makes the transaction fail with the mismatch message; the result
does not depend on the submit-stage oracles, so no order is
submitted. -/
theorem preview_validation_guard (env : TradeEnv) (a : TradeArgs)
    (p p2 : ℚ) (ext : Bool) (prec : ℕ)
    (h1 : env.navigate = .ok ())
    (h2 : env.selectAccount = .ok ())
    (h3 : env.enterSymbol = .ok p)
    (h4 : setup_extended_hours env = .ok (ext, prec))
    (h5 : env.extendedPrice p = .ok p2)
    (h6 : (select_action env.actionClickSucceeds).1 = true)
    (h7 : env.enterQuantity = .ok ())
    (h8 : ∀ x, env.orderTypeUI x = .ok ())
    (h9 : env.previewOrder = .ok none)
    (h10 : env.previewPage.textVisible ("Quantity" ++ pyStr a.quantity)
      = false) :
    transaction env a =
      ⟨false, some "Order preview doesn't match expected values"⟩ ∧
    (∀ (pg : PreviewPage) (acc st act : String) (q : ℚ),
      validate_preview pg acc st act q = true ↔
        (pg.accountVisible (pyUpper acc) = true ∧
         pg.textVisible ("Symbol" ++ pyUpper st) = true ∧
         pg.textVisible ("Action" ++ pyTitle (pyLower act)) = true ∧
         pg.textVisible ("Quantity" ++ pyStr q) = true)) := by
  have hval : validate_preview env.previewPage a.account a.stock a.action
      a.quantity = false := by
    unfold validate_preview
    rw [h10]
    simp
  constructor
  · unfold transaction transaction_body
    rw [h1, h2, h3, h4]
    cases ext
    · simp [h6, h7, h8, h9, hval]
    · simp [h5, h6, h7, h8, h9, hval]
  · intro pg acc st act q
    unfold validate_preview
    simp [Bool.and_eq_true, and_assoc]

theorem preview_validation_guard_witness :
    transaction envPreviewMismatchW argsW =
      ⟨false, some "Order preview doesn't match expected values"⟩ :=
  (preview_validation_guard envPreviewMismatchW argsW 10 10 false 3
    rfl rfl rfl rfl rfl rfl rfl (fun _ => rfl) rfl rfl).1

/-- With no usable secret the TOTP-code branch is never entered:
whatever `login_body` returns for secret `none`, the recorded
TOTP-attempt flag is `false`. -/
lemma login_body_none_att (env : LoginEnv) (sd : Bool) :
    (∀ t, login_body env none sd = .ok t → t.totpAttempted = false) ∧
    (∀ f att, login_body env none sd = .error (f, att) → att = false) := by
  constructor
  · intro t h
    unfold login_body handle_2fa complete_totp_login at h
    repeat' split at h
    all_goals (try exact (Except.noConfusion h))
    all_goals (injection h with h; subst h)
    all_goals simp_all [optStrTruthy]
  · intro f att h
    unfold login_body handle_2fa complete_totp_login at h
    repeat' split at h
    all_goals (try exact (Except.noConfusion h))
    all_goals (injection h with h; injection h with hf ha)
    all_goals simp_all [optStrTruthy]

/-- With no usable secret the TOTP-code branch is never entered: the
trace of `login` with secret `none` always reports
`totpAttempted = false`. -/
lemma login_none_not_totp (env : LoginEnv) (sd : Bool) :
    (login env none sd).totpAttempted = false := by
  cases hb : login_body env none sd with
  | error fa =>
      obtain ⟨f, att⟩ := fa
      unfold login
      rw [hb]
      exact (login_body_none_att env sd).2 f att hb
  | ok t =>
      unfold login
      rw [hb]
      exact (login_body_none_att env sd).1 t hb

/-- C9: for every environment and save-device flag, `login` invoked with
the TOTP secret `"NA"` behaves identically to `login` invoked with no
secret — same two-boolean outcome (indeed the same trace) — and the
TOTP-code path is never attempted. -/
theorem totp_na_normalization (env : LoginEnv) (sd : Bool) :
    login env (some "NA") sd = login env none sd ∧
    (login env (some "NA") sd).step1_success =
      (login env none sd).step1_success ∧
    (login env (some "NA") sd).fully_logged_in =
      (login env none sd).fully_logged_in ∧
    (login env (some "NA") sd).totpAttempted = false := by
  have hbody : login_body env (some "NA") sd = login_body env none sd := by
    unfold login_body
    simp
  have heq : login env (some "NA") sd = login env none sd := by
    unfold login
    rw [hbody]
  exact ⟨heq, by rw [heq], by rw [heq],
    by rw [heq]; exact login_none_not_totp env sd⟩
